import Mathlib

/-
Verification of the drug-response-prediction suite (dataset wrapper and
experiment orchestration) against its specification.

The Python modules are embedded shallowly:
* `DrugResponseDataset` (data_wrapper.py) becomes a structure of parallel
  lists; its in-place mutators (`add_rows`, `shuffle`, `remove_drugs`,
  `remove_cell_lines`, `reduce_to`) become pure functions returning the
  updated dataset.  numpy boolean-mask indexing is `maskFilter`; numpy
  fancy indexing by an index array is `reindex`.  `np.random.shuffle` of
  `np.arange(n)` is modelled by passing the produced index list explicitly.
* `FeatureDataset` becomes an association list entity -> (view -> vector),
  matching the insertion-ordered Python dict.
* fallible code returns `Except PyErr`; `PyErr` distinguishes the Python
  exception classes that matter here.
Ids are `String`, numeric values are `ℚ`.
-/

/-- Python exception outcomes that the embedded code can produce. -/
inductive PyErr where
  | valueError (msg : String) : PyErr
  | unboundLocalError (nm : String) : PyErr
  | typeError (msg : String) : PyErr
deriving DecidableEq, Repr

/-- Embedding of `DrugResponseDataset`: parallel arrays `response`,
`cell_line_ids`, `drug_ids` and the optional `predictions` array
(initialised to `None` by `__init__`). -/
structure DrugResponseDataset where
  response : List ℚ
  cell_line_ids : List String
  drug_ids : List String
  predictions : Option (List ℚ)
deriving DecidableEq, Repr

/-- numpy boolean-mask indexing `arr[mask]`: keep the entries whose mask
bit is true.  (numpy requires the mask and the array to have equal length;
all uses below are under that hypothesis.) -/
def maskFilter {α : Type} : List Bool → List α → List α
  | b :: bs, x :: xs => if b then x :: maskFilter bs xs else maskFilter bs xs
  | _, _ => []

/-- numpy fancy indexing `arr[indices]` with a default for out-of-range
indices (never hit when `indices` is a permutation of `arr` positions). -/
def reindex {α : Type} (dflt : α) (indices : List ℕ) (l : List α) : List α :=
  indices.map fun i => l.getD i dflt

/-- `DrugResponseDataset.add_rows`: concatenates `response`,
`cell_line_ids`, `drug_ids`; concatenates `predictions` only when BOTH
sides carry predictions, otherwise `self.predictions` is left as it is. -/
def add_rows (s other : DrugResponseDataset) : DrugResponseDataset :=
  { response := s.response ++ other.response
    cell_line_ids := s.cell_line_ids ++ other.cell_line_ids
    drug_ids := s.drug_ids ++ other.drug_ids
    predictions :=
      match s.predictions, other.predictions with
      | some p, some q => some (p ++ q)
      | _, _ => s.predictions }

/-- `DrugResponseDataset.shuffle`: `indices` is the result of
`np.random.shuffle(np.arange(len(self.response)))` under the given seed,
a permutation of the positions; every parallel array, predictions
included, is reindexed by it. -/
def shuffle (d : DrugResponseDataset) (indices : List ℕ) : DrugResponseDataset :=
  { response := reindex 0 indices d.response
    cell_line_ids := reindex "" indices d.cell_line_ids
    drug_ids := reindex "" indices d.drug_ids
    predictions := d.predictions.map fun p => reindex 0 indices p }

/-- `DrugResponseDataset.remove_drugs`: boolean mask
`[drug not in drugs_to_remove for drug in self.drug_ids]` applied to
`drug_ids`, `cell_line_ids` and `response`.  `predictions` is NOT
filtered by the source. -/
def remove_drugs (d : DrugResponseDataset) (drugs_to_remove : List String) :
    DrugResponseDataset :=
  let mask := d.drug_ids.map fun drug => decide (drug ∉ drugs_to_remove)
  { response := maskFilter mask d.response
    cell_line_ids := maskFilter mask d.cell_line_ids
    drug_ids := maskFilter mask d.drug_ids
    predictions := d.predictions }

/-- `DrugResponseDataset.remove_cell_lines`: boolean mask over
`cell_line_ids`, applied to the same three arrays; `predictions` is
again left untouched. -/
def remove_cell_lines (d : DrugResponseDataset) (cell_lines_to_remove : List String) :
    DrugResponseDataset :=
  let mask := d.cell_line_ids.map fun cl => decide (cl ∉ cell_lines_to_remove)
  { response := maskFilter mask d.response
    cell_line_ids := maskFilter mask d.cell_line_ids
    drug_ids := maskFilter mask d.drug_ids
    predictions := d.predictions }

/-- `DrugResponseDataset.reduce_to`: removes the drugs of the current
rows that are not whitelisted, then the cell lines of the remaining rows
that are not whitelisted. -/
def reduce_to (d : DrugResponseDataset) (cl_wl drug_wl : List String) :
    DrugResponseDataset :=
  let d1 := remove_drugs d (d.drug_ids.filter fun drug => decide (drug ∉ drug_wl))
  remove_cell_lines d1 (d1.cell_line_ids.filter fun cl => decide (cl ∉ cl_wl))

/-- Well-formedness of the three primary parallel arrays: equal lengths. -/
def wf3 (d : DrugResponseDataset) : Prop :=
  d.cell_line_ids.length = d.response.length ∧
  d.drug_ids.length = d.response.length

instance (d : DrugResponseDataset) : Decidable (wf3 d) :=
  inferInstanceAs (Decidable (_ ∧ _))

lemma maskFilter_nil {α : Type} (m : List Bool) : maskFilter m ([] : List α) = [] := by
  cases m <;> rfl

lemma maskFilter_map_self {α : Type} (p : α → Bool) :
    ∀ l : List α, maskFilter (l.map p) l = l.filter p := by
  intro l
  induction l with
  | nil => rfl
  | cons x xs ih =>
      simp only [List.map_cons, maskFilter, List.filter_cons]
      by_cases h : p x = true
      · simp [h, ih]
      · simp [h, ih]

lemma mem_of_mem_maskFilter {α : Type} :
    ∀ (m : List Bool) (l : List α) (x : α), x ∈ maskFilter m l → x ∈ l := by
  intro m
  induction m with
  | nil => intro l x hx; cases l <;> simp [maskFilter] at hx
  | cons b bs ih =>
      intro l x hx
      cases l with
      | nil => simp [maskFilter] at hx
      | cons y ys =>
          simp only [maskFilter] at hx
          by_cases hb : b = true
          · rw [if_pos hb] at hx
            rcases List.mem_cons.mp hx with h | h
            · exact h ▸ List.mem_cons_self _ _
            · exact List.mem_cons_of_mem _ (ih ys x h)
          · rw [if_neg hb] at hx
            exact List.mem_cons_of_mem _ (ih ys x hx)

lemma maskFilter_length_eq {α β : Type} :
    ∀ (m : List Bool) (l₁ : List α) (l₂ : List β), l₁.length = l₂.length →
      (maskFilter m l₁).length = (maskFilter m l₂).length := by
  intro m
  induction m with
  | nil => intro l₁ l₂ _; cases l₁ <;> cases l₂ <;> rfl
  | cons b bs ih =>
      intro l₁ l₂ h
      cases l₁ with
      | nil => cases l₂ with
        | nil => rfl
        | cons y ys => simp at h
      | cons x xs =>
          cases l₂ with
          | nil => simp at h
          | cons y ys =>
              simp only [List.length_cons, Nat.succ.injEq] at h
              simp only [maskFilter]
              by_cases hb : b = true
              · rw [if_pos hb, if_pos hb]
                simp [ih xs ys h]
              · rw [if_neg hb, if_neg hb]
                exact ih xs ys h

lemma maskFilter_all_true {α : Type} :
    ∀ (m : List Bool) (l : List α), (∀ b ∈ m, b = true) → l.length ≤ m.length →
      maskFilter m l = l := by
  intro m
  induction m with
  | nil => intro l _ hlen; cases l with
    | nil => rfl
    | cons x xs => simp at hlen
  | cons b bs ih =>
      intro l hb hlen
      cases l with
      | nil => exact maskFilter_nil _
      | cons x xs =>
          have hbt : b = true := hb b (List.mem_cons_self _ _)
          simp only [maskFilter, if_pos hbt]
          simp only [List.length_cons, Nat.succ_le_succ_iff] at hlen
          rw [ih xs (fun c hc => hb c (List.mem_cons_of_mem _ hc)) hlen]

lemma remove_drugs_drug_ids (d : DrugResponseDataset) (rm : List String) :
    (remove_drugs d rm).drug_ids = d.drug_ids.filter fun drug => decide (drug ∉ rm) :=
  maskFilter_map_self _ _

lemma remove_cell_lines_cell_line_ids (d : DrugResponseDataset) (rm : List String) :
    (remove_cell_lines d rm).cell_line_ids =
      d.cell_line_ids.filter fun cl => decide (cl ∉ rm) :=
  maskFilter_map_self _ _

lemma remove_drugs_wf3 (d : DrugResponseDataset) (rm : List String) (h : wf3 d) :
    wf3 (remove_drugs d rm) := by
  obtain ⟨hc, hd⟩ := h
  constructor
  · exact maskFilter_length_eq _ _ _ hc
  · exact maskFilter_length_eq _ _ _ hd

lemma remove_cell_lines_wf3 (d : DrugResponseDataset) (rm : List String) (h : wf3 d) :
    wf3 (remove_cell_lines d rm) := by
  obtain ⟨hc, hd⟩ := h
  constructor
  · exact maskFilter_length_eq _ _ _ hc
  · exact maskFilter_length_eq _ _ _ hd

lemma reduce_to_wf3 (d : DrugResponseDataset) (clw dw : List String) (h : wf3 d) :
    wf3 (reduce_to d clw dw) :=
  remove_cell_lines_wf3 _ _ (remove_drugs_wf3 _ _ h)

lemma remove_drugs_predictions (d : DrugResponseDataset) (rm : List String) :
    (remove_drugs d rm).predictions = d.predictions := rfl

lemma remove_cell_lines_predictions (d : DrugResponseDataset) (rm : List String) :
    (remove_cell_lines d rm).predictions = d.predictions := rfl

lemma reduce_to_predictions (d : DrugResponseDataset) (clw dw : List String) :
    (reduce_to d clw dw).predictions = d.predictions := rfl

lemma remove_drugs_nil (d : DrugResponseDataset) (h : wf3 d) :
    remove_drugs d [] = d := by
  obtain ⟨hc, hd⟩ := h
  have hmask : ∀ b ∈ d.drug_ids.map fun drug => decide (drug ∉ ([] : List String)),
      b = true := by
    intro b hb
    rcases List.mem_map.mp hb with ⟨drug, _, rfl⟩
    simp
  have hlen : (d.drug_ids.map fun drug => decide (drug ∉ ([] : List String))).length
      = d.drug_ids.length := List.length_map _ _
  cases d with
  | mk resp cls drugs preds =>
      simp only [remove_drugs]
      congr 1
      · exact maskFilter_all_true _ _ hmask (by simp_all)
      · exact maskFilter_all_true _ _ hmask (by simp_all)
      · exact maskFilter_all_true _ _ hmask (by simp_all)

lemma remove_cell_lines_nil (d : DrugResponseDataset) (h : wf3 d) :
    remove_cell_lines d [] = d := by
  obtain ⟨hc, hd⟩ := h
  have hmask : ∀ b ∈ d.cell_line_ids.map fun cl => decide (cl ∉ ([] : List String)),
      b = true := by
    intro b hb
    rcases List.mem_map.mp hb with ⟨cl, _, rfl⟩
    simp
  cases d with
  | mk resp cls drugs preds =>
      simp only [remove_cell_lines]
      congr 1
      · exact maskFilter_all_true _ _ hmask (by simp_all)
      · exact maskFilter_all_true _ _ hmask (by simp_all)
      · exact maskFilter_all_true _ _ hmask (by simp_all)

/-- Every drug id surviving `reduce_to` is whitelisted. -/
lemma reduce_to_drug_mem (d : DrugResponseDataset) (clw dw : List String) :
    ∀ drug ∈ (reduce_to d clw dw).drug_ids, drug ∈ dw := by
  intro drug hmem
  simp only [reduce_to] at hmem
  have h1 : drug ∈ (remove_drugs d
      (d.drug_ids.filter fun x => decide (x ∉ dw))).drug_ids :=
    mem_of_mem_maskFilter _ _ _ hmem
  rw [remove_drugs_drug_ids] at h1
  rcases List.mem_filter.mp h1 with ⟨h2, h3⟩
  by_contra hnot
  have : drug ∈ d.drug_ids.filter fun x => decide (x ∉ dw) :=
    List.mem_filter.mpr ⟨h2, by simpa using hnot⟩
  simp only [decide_eq_true_eq] at h3
  exact h3 this

/-- Every cell-line id surviving `reduce_to` is whitelisted. -/
lemma reduce_to_cl_mem (d : DrugResponseDataset) (clw dw : List String) :
    ∀ cl ∈ (reduce_to d clw dw).cell_line_ids, cl ∈ clw := by
  intro cl hmem
  simp only [reduce_to] at hmem
  set d1 := remove_drugs d (d.drug_ids.filter fun x => decide (x ∉ dw)) with hd1
  rw [remove_cell_lines_cell_line_ids] at hmem
  rcases List.mem_filter.mp hmem with ⟨h2, h3⟩
  by_contra hnot
  have : cl ∈ d1.cell_line_ids.filter fun x => decide (x ∉ clw) :=
    List.mem_filter.mpr ⟨h2, by simpa using hnot⟩
  simp only [decide_eq_true_eq] at h3
  exact h3 this

/-- C9: `reduce_to` applied a second time with the same whitelists changes
nothing. -/
theorem C9_reduce_to_idempotent (d : DrugResponseDataset) (clw dw : List String)
    (h : wf3 d) :
    reduce_to (reduce_to d clw dw) clw dw = reduce_to d clw dw := by
  set d2 := reduce_to d clw dw with hd2
  have hwf2 : wf3 d2 := reduce_to_wf3 d clw dw h
  have hdrug : (d2.drug_ids.filter fun drug => decide (drug ∉ dw)) = [] := by
    apply List.filter_eq_nil_iff.mpr
    intro a ha
    simp only [decide_eq_true_eq, Decidable.not_not]
    simpa using reduce_to_drug_mem d clw dw a ha
  have step1 : remove_drugs d2 (d2.drug_ids.filter fun drug => decide (drug ∉ dw))
      = d2 := by
    rw [hdrug]
    exact remove_drugs_nil d2 hwf2
  have hcl : (d2.cell_line_ids.filter fun cl => decide (cl ∉ clw)) = [] := by
    apply List.filter_eq_nil_iff.mpr
    intro a ha
    simp only [decide_eq_true_eq, Decidable.not_not]
    simpa using reduce_to_cl_mem d clw dw a ha
  show reduce_to d2 clw dw = d2
  simp only [reduce_to]
  rw [step1, hcl]
  exact remove_cell_lines_nil d2 hwf2

/-- Concrete input for the C9 witness. -/
def C9d : DrugResponseDataset :=
  ⟨[1, 2, 3], ["c1", "c2", "c3"], ["d1", "d2", "d3"], none⟩

/-- Witness for C9 at a concrete dataset and whitelists. -/
theorem C9_witness :
    wf3 C9d ∧
    reduce_to (reduce_to C9d ["c1", "c3"] ["d1"]) ["c1", "c3"] ["d1"]
      = reduce_to C9d ["c1", "c3"] ["d1"] :=
  ⟨by decide, C9_reduce_to_idempotent C9d ["c1", "c3"] ["d1"] (by decide)⟩

/-- Concrete dataset for the C1 counterexample: two rows with predictions
present. -/
def C1d : DrugResponseDataset :=
  ⟨[1, 2], ["c1", "c2"], ["d1", "d2"], some [1, 2]⟩

/-- C1 counterexample: after `remove_drugs` on a dataset that carries
predictions, the primary arrays shrink to one row but `predictions`
still has two entries, so the claimed length invariant fails. -/
theorem C1_counterexample :
    (remove_drugs C1d ["d1"]).response.length = 1 ∧
    (remove_drugs C1d ["d1"]).cell_line_ids.length = 1 ∧
    (remove_drugs C1d ["d1"]).drug_ids.length = 1 ∧
    (remove_drugs C1d ["d1"]).predictions = some [1, 2] := by
  decide

/-- C1 (amended): the three primary arrays keep equal lengths after every
filter, shuffle and concatenate; `predictions`, when present, keeps the
response length after `shuffle` and after `add_rows` when both operands
carry length-consistent predictions, but filters leave it untouched and
one-sided `add_rows` leaves it stale. -/
theorem C1_length_invariant_amended (d d2 : DrugResponseDataset)
    (rmd rmc clw dw : List String) (idx : List ℕ)
    (h : wf3 d) (h2 : wf3 d2) (_hidx : idx.length = d.response.length) :
    (wf3 (remove_drugs d rmd) ∧ (remove_drugs d rmd).predictions = d.predictions) ∧
    (wf3 (remove_cell_lines d rmc) ∧
      (remove_cell_lines d rmc).predictions = d.predictions) ∧
    (wf3 (reduce_to d clw dw) ∧ (reduce_to d clw dw).predictions = d.predictions) ∧
    (wf3 (shuffle d idx) ∧ ∀ p, d.predictions = some p →
      ∃ q, (shuffle d idx).predictions = some q ∧
        q.length = (shuffle d idx).response.length) ∧
    (wf3 (add_rows d d2) ∧
      (∀ p q, d.predictions = some p → d2.predictions = some q →
        p.length = d.response.length → q.length = d2.response.length →
        ∃ r, (add_rows d d2).predictions = some r ∧
          r.length = (add_rows d d2).response.length) ∧
      (d.predictions = none → (add_rows d d2).predictions = none)) := by
  obtain ⟨hc, hd⟩ := h
  obtain ⟨hc2, hd2⟩ := h2
  refine ⟨⟨remove_drugs_wf3 d rmd ⟨hc, hd⟩, rfl⟩,
    ⟨remove_cell_lines_wf3 d rmc ⟨hc, hd⟩, rfl⟩,
    ⟨reduce_to_wf3 d clw dw ⟨hc, hd⟩, rfl⟩, ⟨?_, ?_⟩, ⟨?_, ?_, ?_⟩⟩
  · constructor <;> simp [shuffle, reindex]
  · intro p hp
    refine ⟨reindex 0 idx p, ?_, ?_⟩
    · simp [shuffle, hp]
    · simp [shuffle, reindex]
  · constructor <;> simp [add_rows, hc, hd, hc2, hd2]
  · intro p q hp hq hlp hlq
    refine ⟨p ++ q, ?_, ?_⟩
    · simp [add_rows, hp, hq]
    · simp [add_rows, hlp, hlq]
  · intro hp
    simp [add_rows, hp]

/-- Second concrete dataset for the C1 witness. -/
def C1d2 : DrugResponseDataset := ⟨[7], ["c9"], ["d9"], some [7]⟩

/-- Witness for C1 (amended) at concrete datasets, removal lists,
whitelists and a concrete shuffle permutation. -/
theorem C1_witness :
    wf3 C1d ∧ wf3 C1d2 ∧ [1, 0].length = C1d.response.length ∧
    ((wf3 (remove_drugs C1d ["d1"]) ∧
        (remove_drugs C1d ["d1"]).predictions = C1d.predictions) ∧
      (wf3 (remove_cell_lines C1d ["c2"]) ∧
        (remove_cell_lines C1d ["c2"]).predictions = C1d.predictions) ∧
      (wf3 (reduce_to C1d ["c1"] ["d1"]) ∧
        (reduce_to C1d ["c1"] ["d1"]).predictions = C1d.predictions) ∧
      (wf3 (shuffle C1d [1, 0]) ∧ ∀ p, C1d.predictions = some p →
        ∃ q, (shuffle C1d [1, 0]).predictions = some q ∧
          q.length = (shuffle C1d [1, 0]).response.length) ∧
      (wf3 (add_rows C1d C1d2) ∧
        (∀ p q, C1d.predictions = some p → C1d2.predictions = some q →
          p.length = C1d.response.length → q.length = C1d2.response.length →
          ∃ r, (add_rows C1d C1d2).predictions = some r ∧
            r.length = (add_rows C1d C1d2).response.length) ∧
        (C1d.predictions = none → (add_rows C1d C1d2).predictions = none))) :=
  ⟨by decide, by decide, by decide,
    C1_length_invariant_amended C1d C1d2 ["d1"] ["c2"] ["c1"] ["d1"] [1, 0]
      (by decide) (by decide) (by decide)⟩

/-- Concrete datasets for the C5 counterexample: `C5s` carries
predictions, `C5o` does not. -/
def C5s : DrugResponseDataset := ⟨[1], ["c1"], ["d1"], some [5]⟩

/-- Second operand of the C5 counterexample, without predictions. -/
def C5o : DrugResponseDataset := ⟨[2], ["c2"], ["d2"], none⟩

/-- C5 counterexample: with exactly one operand carrying predictions,
`add_rows` does not fail; it returns an ordinary dataset whose stale
predictions array (one entry) no longer matches the grown response array
(two entries), so the inconsistency is silent, contradicting the claim
that the operation fails. -/
theorem C5_counterexample :
    C5s.predictions = some [5] ∧ C5o.predictions = none ∧
    add_rows C5s C5o =
      ⟨[1, 2], ["c1", "c2"], ["d1", "d2"], some [5]⟩ ∧
    (add_rows C5s C5o).response.length = 2 := by
  decide

/-- C5 (amended): `add_rows` appends `response`, `cell_line_ids` and
`drug_ids` elementwise and appends `predictions` when both operands carry
them; when exactly one operand carries predictions it does NOT fail: it
silently keeps the predictions of `self`, which leaves the dataset
inconsistent (predictions length differs from response length) whenever
`other` is non-empty. -/
theorem C5_add_rows_amended (s o : DrugResponseDataset) :
    (add_rows s o).response = s.response ++ o.response ∧
    (add_rows s o).cell_line_ids = s.cell_line_ids ++ o.cell_line_ids ∧
    (add_rows s o).drug_ids = s.drug_ids ++ o.drug_ids ∧
    (∀ p q, s.predictions = some p → o.predictions = some q →
      (add_rows s o).predictions = some (p ++ q)) ∧
    (o.predictions = none → (add_rows s o).predictions = s.predictions) ∧
    (∀ p, s.predictions = some p → o.predictions = none →
      p.length = s.response.length → o.response ≠ [] →
      ∀ r, (add_rows s o).predictions = some r →
        r.length ≠ (add_rows s o).response.length) := by
  refine ⟨rfl, rfl, rfl, ?_, ?_, ?_⟩
  · intro p q hp hq
    simp [add_rows, hp, hq]
  · intro ho
    cases hs : s.predictions <;> simp [add_rows, hs, ho]
  · intro p hp ho hlen hne r hr
    have hrp : r = p := by
      simp [add_rows, hp, ho] at hr
      exact hr.symm
    subst hrp
    simp only [add_rows, List.length_append, hlen]
    have : 0 < o.response.length := List.length_pos.mpr hne
    omega

/-- Witness for C5 (amended) at the concrete datasets of the
counterexample scenario with both-sided and one-sided predictions. -/
theorem C5_witness :
    ((add_rows C5s C5o).response = C5s.response ++ C5o.response ∧
      (add_rows C5s C5o).cell_line_ids = C5s.cell_line_ids ++ C5o.cell_line_ids ∧
      (add_rows C5s C5o).drug_ids = C5s.drug_ids ++ C5o.drug_ids ∧
      (∀ p q, C5s.predictions = some p → C5o.predictions = some q →
        (add_rows C5s C5o).predictions = some (p ++ q)) ∧
      (C5o.predictions = none → (add_rows C5s C5o).predictions = C5s.predictions) ∧
      (∀ p, C5s.predictions = some p → C5o.predictions = none →
        p.length = C5s.response.length → C5o.response ≠ [] →
        ∀ r, (add_rows C5s C5o).predictions = some r →
          r.length ≠ (add_rows C5s C5o).response.length)) ∧
    (add_rows C5s C5o).predictions = some [5] :=
  ⟨C5_add_rows_amended C5s C5o, by decide⟩

/-- Embedding of `FeatureDataset`: an insertion-ordered mapping
entity id -> (view name -> feature vector), as a Python dict of dicts. -/
structure FeatureDataset where
  features : List (String × List (String × List ℚ))
deriving DecidableEq, Repr

/-- `FeatureDataset.get_ids`: the entity keys. -/
def get_ids (fd : FeatureDataset) : List String :=
  fd.features.map Prod.fst

/-- `FeatureDataset.identifiers`, set by `__init__` to `get_ids()`. -/
def identifiers (fd : FeatureDataset) : List String :=
  get_ids fd

/-- `FeatureDataset.get_view_names`: the view keys of the first entity.
(On an empty store the source raises IndexError; no claim touches that
case, the headD default is never reached below.) -/
def get_view_names (fd : FeatureDataset) : List String :=
  ((fd.features.headD ("", [])).2).map Prod.fst

/-- `FeatureDataset.randomize_features`.  The first statement of the body
is `if isinstance(views, str)`, but the only assignment to the local name
`views` sits inside that very branch, while the parameter is named
`views_to_randomize`; Python therefore raises UnboundLocalError on every
call, before the mode is inspected and before any feature is touched.
The embedding returns that error for all inputs. -/
def randomize_features (fd : FeatureDataset) (views_to_randomize : List String)
    (mode : String) : Except PyErr FeatureDataset :=
  let _ := fd
  let _ := views_to_randomize
  let _ := mode
  Except.error (PyErr.unboundLocalError "views")

/-- Modelled from the spec: `FeatureDataset.copy`, called by
`randomization_test`, has no definition in the `FeatureDataset` class of
the sources; the spec (§3, §4.3, §5) prescribes a value copy of the
store that never aliases the original.  A value copy of an immutable
Lean value is the value itself. -/
def copy (fd : FeatureDataset) : FeatureDataset := fd

/-- One fold dict produced by the splitters. -/
structure CVSplit where
  train : DrugResponseDataset
  validation : Option DrugResponseDataset
  test : DrugResponseDataset
deriving DecidableEq, Repr

/-- `DrugResponseDataset.split_dataset`: dispatch on `mode`.  The fold
construction lives in `utils.leave_pair_out_cv` / `utils.leave_group_out_cv`,
which are outside the given sources, so the two splitters are parameters;
the dispatch, including the failure branch, is independent of them. -/
def split_dataset (d : DrugResponseDataset)
    (leave_pair_out_cv : ℕ → DrugResponseDataset → List CVSplit)
    (leave_group_out_cv : String → ℕ → DrugResponseDataset → List CVSplit)
    (n_cv_splits : ℕ) (mode : String) : Except PyErr (List CVSplit) :=
  if mode = "LPO" then
    Except.ok (leave_pair_out_cv n_cv_splits d)
  else if mode ∈ ["LCO", "LDO"] then
    Except.ok (leave_group_out_cv (if mode = "LCO" then "cell_line" else "drug")
      n_cv_splits d)
  else
    Except.error (PyErr.valueError ("Unknown split mode " ++ mode))

/-- Concrete feature store for the C2 failing input. -/
def C2fd : FeatureDataset :=
  ⟨[("e1", [("exp", [1, 2]), ("mut", [0])]),
    ("e2", [("exp", [3, 4]), ("mut", [1])])]⟩

/-- C2: evaluating `randomize_features` at the failing input — permutation
mode over an existing view — yields UnboundLocalError on the name `views`
instead of permuting anything: the permutation semantics the claim
describes is never reached. -/
theorem C2_randomize_features_crashes :
    randomize_features C2fd ["exp"] "permutation"
      = Except.error (PyErr.unboundLocalError "views") := rfl

/-- Concrete dataset for the C7 failing input. -/
def C7d : DrugResponseDataset := ⟨[1], ["c1"], ["d1"], none⟩

/-- Dummy pair splitter for the C7 evaluation (never inspected by the
failing branch). -/
def C7lpo : ℕ → DrugResponseDataset → List CVSplit := fun _ _ => []

/-- Dummy group splitter for the C7 evaluation. -/
def C7lgo : String → ℕ → DrugResponseDataset → List CVSplit := fun _ _ _ => []

/-- Concrete feature store for the C7 failing input. -/
def C7fd : FeatureDataset := ⟨[("e1", [("gexp", [1])])]⟩

/-- C7: `split_dataset` does fail fast with the configuration error on an
unknown split mode, but `randomize_features` with an unknown
randomization mode raises UnboundLocalError on the name `views` — its
unknown-mode ValueError branch is unreachable. -/
theorem C7_mode_dispatch :
    split_dataset C7d C7lpo C7lgo 5 "LXO"
      = Except.error (PyErr.valueError "Unknown split mode LXO") ∧
    split_dataset C7d C7lpo C7lgo 5 "LPO" = Except.ok [] ∧
    randomize_features C7fd ["gexp"] "bogus"
      = Except.error (PyErr.unboundLocalError "views") := by
  refine ⟨?_, rfl, rfl⟩
  rfl

/-- Concrete cell-line store for C3. -/
def C3cl : FeatureDataset := ⟨[("c1", [("gene_expression", [1, 2])])]⟩

/-- Concrete drug store for C3. -/
def C3drug : FeatureDataset := ⟨[("d1", [("fingerprint", [7])])]⟩

/-- Cell-line store for the C6 counterexample: owns view `b` only. -/
def C6cl : FeatureDataset := ⟨[("c1", [("b", [1])])]⟩

/-- Drug store for the C6 counterexample: owns view `z` only. -/
def C6drug : FeatureDataset := ⟨[("d1", [("z", [4])])]⟩

/-- State threaded through the loops of `randomization_test`
(experiment.py): the two canonical stores (the source mutates them in
place), the `(test name, view)` combinations that reach
`train_and_predict`, the store pairs handed to `train_and_predict`, and
the warnings emitted so far. -/
structure RandTestState where
  cl_features : FeatureDataset
  drug_features : FeatureDataset
  processed : List (String × String)
  trained_with : List (FeatureDataset × FeatureDataset)
  warnings : List String
deriving DecidableEq, Repr

/-- The warning `randomization_test` emits for a view absent from both
stores; its own text announces that the whole test group is skipped. -/
def randomization_warning (test_name view : String) : String :=
  "View " ++ view ++ " not found in features. Skipping randomization test "
    ++ test_name ++ " which includes this view."

/-- Inner loop of `randomization_test` over the views of one test group,
with Python exception propagation.  Each iteration first takes the
copies `cl_features_rand` / `drug_features_rand`; a view found in a
store makes the source call `randomize_features` ON THE CANONICAL store
(and that call always raises, see `randomize_features`, which aborts the
loop); in the success case the source would write the perturbed result
back into the canonical store and hand the pristine COPIES to
`train_and_predict`; a view absent from both stores appends the warning
and executes `break`, abandoning the remaining views of the group. -/
def randomization_views_loop (test_name : String) :
    List String → RandTestState → RandTestState × Option PyErr
  | [], st => (st, none)
  | view :: rest, st =>
    let cl_features_rand := copy st.cl_features
    let drug_features_rand := copy st.drug_features
    if view ∈ get_view_names st.cl_features then
      match randomize_features st.cl_features [view] "gaussian" with
      | Except.error e => (st, some e)
      | Except.ok cl2 =>
          randomization_views_loop test_name rest
            { st with
              cl_features := cl2
              processed := st.processed ++ [(test_name, view)]
              trained_with := st.trained_with
                ++ [(cl_features_rand, drug_features_rand)] }
    else if view ∈ get_view_names st.drug_features then
      match randomize_features st.drug_features [view] "gaussian" with
      | Except.error e => (st, some e)
      | Except.ok dr2 =>
          randomization_views_loop test_name rest
            { st with
              drug_features := dr2
              processed := st.processed ++ [(test_name, view)]
              trained_with := st.trained_with
                ++ [(cl_features_rand, drug_features_rand)] }
    else
      ({ st with
          warnings := st.warnings ++ [randomization_warning test_name view] },
        none)

/-- Outer loop of `randomization_test` over the named test groups: a
warn-and-break in one group lets the next group run; an exception
propagates out of the whole function. -/
def randomization_test_loop :
    List (String × List String) → RandTestState → RandTestState × Option PyErr
  | [], st => (st, none)
  | (test_name, views) :: rest, st =>
    match randomization_views_loop test_name views st with
    | (st2, some e) => (st2, some e)
    | (st2, none) => randomization_test_loop rest st2

/-- `randomization_test` (experiment.py), modulo the per-combination
saving of predictions to disk: runs the double loop starting from the
two canonical stores. -/
def randomization_test (cl_features drug_features : FeatureDataset)
    (tests : List (String × List String)) : RandTestState × Option PyErr :=
  randomization_test_loop tests ⟨cl_features, drug_features, [], [], []⟩

/-- The randomization-test request of the C3 failing input. -/
def C3tests : List (String × List String) :=
  [("randomize_genomics", ["gene_expression"])]

/-- C3: the first `(test, view)` iteration invokes `randomize_features`
on the CANONICAL cell-line store (the untouched copies are the ones that
would go to `train_and_predict`), and that call raises UnboundLocalError,
aborting the whole randomization test: no combination ever reaches
`train_and_predict`, so no perturbed copy is ever produced or used for
retraining, and the canonical stores stay unchanged only because the
crash precedes any mutation — not because a copy was perturbed in their
stead, as the claim states. -/
theorem C3_run_aborts_unperturbed :
    (randomization_test C3cl C3drug C3tests).2
      = some (PyErr.unboundLocalError "views") ∧
    (randomization_test C3cl C3drug C3tests).1.cl_features = C3cl ∧
    (randomization_test C3cl C3drug C3tests).1.drug_features = C3drug ∧
    (randomization_test C3cl C3drug C3tests).1.processed = [] ∧
    (randomization_test C3cl C3drug C3tests).1.trained_with = [] := by
  refine ⟨by decide, by decide, by decide, by decide, by decide⟩

/-- The randomization-test request of the C6 counterexample: group `t`
asks for view `a` (in neither store) and then view `b` (owned by the
cell-line store). -/
def C6tests : List (String × List String) := [("t", ["a", "b"])]

/-- C6 counterexample: view `a` exists in neither store, so the claim
says only `(t, a)` is skipped with a warning while `(t, b)` — whose view
the cell-line store owns — is still processed; the run in fact emits the
single warning for `a` and finishes without processing anything: the
`break` abandons the rest of the group, so `(t, b)` never reaches
`train_and_predict`. -/
theorem C6_counterexample_run :
    "b" ∈ get_view_names C6cl ∧
    (randomization_test C6cl C6drug C6tests).2 = none ∧
    (randomization_test C6cl C6drug C6tests).1.processed = [] ∧
    (randomization_test C6cl C6drug C6tests).1.warnings
      = [randomization_warning "t" "a"] := by
  refine ⟨by decide, by decide, by decide, by decide⟩

lemma randomization_views_loop_processed (test_name : String) :
    ∀ (views : List String) (st : RandTestState),
      ((randomization_views_loop test_name views st).1).processed
        = st.processed := by
  intro views
  induction views with
  | nil => intro st; rfl
  | cons v rest ih =>
      intro st
      simp only [randomization_views_loop, randomize_features]
      by_cases h1 : v ∈ get_view_names st.cl_features
      · simp [h1]
      · by_cases h2 : v ∈ get_view_names st.drug_features
        · simp [h1, h2]
        · simp [h1, h2]

lemma randomization_test_loop_processed :
    ∀ (tests : List (String × List String)) (st : RandTestState),
      ((randomization_test_loop tests st).1).processed = st.processed := by
  intro tests
  induction tests with
  | nil => intro st; rfl
  | cons t rest ih =>
      intro st
      obtain ⟨test_name, views⟩ := t
      have hviews := randomization_views_loop_processed test_name views st
      simp only [randomization_test_loop]
      rcases hv : randomization_views_loop test_name views st with ⟨st2, err⟩
      rw [hv] at hviews
      cases err with
      | none =>
          show (randomization_test_loop rest st2).1.processed = st.processed
          rw [ih st2]
          exact hviews
      | some e =>
          show st2.processed = st.processed
          exact hviews

/-- C6 (amended): a view missing from both stores makes its group warn
and `break` — all remaining views of THAT group, found or not, are
abandoned, while the outer loop continues with the next group exactly as
a fresh run started after the warning; a view found in a store instead
aborts the ENTIRE randomization test with the UnboundLocalError raised
inside `randomize_features`, so no later group runs either; and in every
case no `(test, view)` combination ever reaches `train_and_predict`. -/
theorem C6_break_and_abort_semantics (cl_features drug_features : FeatureDataset)
    (test_name v : String) (vs : List String)
    (rest : List (String × List String)) :
    (v ∉ get_view_names cl_features → v ∉ get_view_names drug_features →
      randomization_test cl_features drug_features ((test_name, v :: vs) :: rest)
        = randomization_test_loop rest
            ⟨cl_features, drug_features, [], [],
              [randomization_warning test_name v]⟩) ∧
    ((v ∈ get_view_names cl_features ∨ v ∈ get_view_names drug_features) →
      randomization_test cl_features drug_features ((test_name, v :: vs) :: rest)
        = (⟨cl_features, drug_features, [], [], []⟩,
            some (PyErr.unboundLocalError "views"))) ∧
    (∀ tests, (randomization_test cl_features drug_features tests).1.processed
        = []) := by
  refine ⟨?_, ?_, ?_⟩
  · intro h1 h2
    simp [randomization_test, randomization_test_loop, randomization_views_loop,
      h1, h2]
  · intro hfound
    by_cases hcl : v ∈ get_view_names cl_features
    · simp [randomization_test, randomization_test_loop,
        randomization_views_loop, randomize_features, hcl]
    · have hdrug : v ∈ get_view_names drug_features := hfound.resolve_left hcl
      simp [randomization_test, randomization_test_loop,
        randomization_views_loop, randomize_features, hcl, hdrug]
  · intro tests
    exact randomization_test_loop_processed tests _

/-- Witness for C6 (amended): group `t` has missing head view `a`
followed by the owned view `b`, and a later group `u` remains. -/
theorem C6_witness :
    ("a" ∉ get_view_names C6cl) ∧ ("a" ∉ get_view_names C6drug) ∧
    (randomization_test C6cl C6drug [("t", ["a", "b"]), ("u", ["z"])]
      = randomization_test_loop [("u", ["z"])]
          ⟨C6cl, C6drug, [], [], [randomization_warning "t" "a"]⟩) ∧
    (∀ tests, (randomization_test C6cl C6drug tests).1.processed = []) :=
  ⟨by decide, by decide,
    (C6_break_and_abort_semantics C6cl C6drug "t" "a" ["b"]
      [("u", ["z"])]).1 (by decide) (by decide),
    (C6_break_and_abort_semantics C6cl C6drug "t" "a" ["b"]
      [("u", ["z"])]).2.2⟩

/-- Modelled from the spec: the model collaborator contract (§3, §6);
`drp_model.py` is not among the given sources.  Only the members the
experiment code reads are carried: the two feature-store loaders and
`predict`; `train` mutates model internals only and is dropped. -/
structure DRPModel where
  get_cell_line_features : String → FeatureDataset
  get_drug_features : String → FeatureDataset
  predict : List String → List String → FeatureDataset → FeatureDataset → List ℚ

/-- A hyperparameter configuration: the dict handled by the experiment
code, with the single key it subscripts (`feature_path`) explicit. -/
structure Hpam where
  feature_path : String
  params : List (String × ℚ)
deriving DecidableEq, Repr

/-- State of the datasets after `train_and_predict` (the Python function
mutates them in place and returns the prediction dataset). -/
structure TAPResult where
  train : DrugResponseDataset
  prediction : DrugResponseDataset
  early_stopping : Option DrugResponseDataset
deriving Repr

/-- `train_and_predict` (experiment.py): loads the feature stores unless
they are given, reduces the train / prediction / early-stopping datasets
IN PLACE to the feature identifiers, trains, then writes the
`model.predict` output into the prediction dataset.  State passing makes
the in-place mutations explicit. -/
def train_and_predict (model : DRPModel) (hpams : Hpam)
    (train_dataset prediction_dataset : DrugResponseDataset)
    (early_stopping_dataset : Option DrugResponseDataset)
    (cl_features drug_features : Option FeatureDataset) : TAPResult :=
  let clF := cl_features.getD (model.get_cell_line_features hpams.feature_path)
  let drugF := drug_features.getD (model.get_drug_features hpams.feature_path)
  let train1 := reduce_to train_dataset (identifiers clF) (identifiers drugF)
  let pred1 := reduce_to prediction_dataset (identifiers clF) (identifiers drugF)
  let early1 := early_stopping_dataset.map fun e =>
    reduce_to e (identifiers clF) (identifiers drugF)
  let preds := model.predict pred1.cell_line_ids pred1.drug_ids clF drugF
  ⟨train1, { pred1 with predictions := some preds }, early1⟩

/-- Result of `train_and_evaluate`: the rmse score and the datasets after
the trial. -/
structure TEvalResult where
  score : ℚ
  train : DrugResponseDataset
  val : DrugResponseDataset
  early_stopping : Option DrugResponseDataset

/-- `train_and_evaluate`: one tuning trial; the evaluation collaborator
(evaluation.py, outside the given sources) is the parameter `evaluate`,
standing for `evaluate(validation_dataset, metric=["rmse"])["rmse"]`. -/
def train_and_evaluate (model : DRPModel) (evaluate : DrugResponseDataset → ℚ)
    (hpams : Hpam) (train_dataset validation_dataset : DrugResponseDataset)
    (early_stopping_dataset : Option DrugResponseDataset) : TEvalResult :=
  let r := train_and_predict model hpams train_dataset validation_dataset
    early_stopping_dataset none none
  ⟨evaluate r.prediction, r.train, r.prediction, r.early_stopping⟩

/-- Comparison of a trial score against the running best rmse, which is
initialised to `float("inf")` — modelled as `none`. -/
def ltInf (q : ℚ) : Option ℚ → Bool
  | none => true
  | some b => decide (q < b)

/-- Outcome of `hpam_tune`: the selected configuration and the datasets
after all trials (they are the very objects the caller passed in). -/
structure HpamTuneResult where
  best : Option Hpam
  train : DrugResponseDataset
  val : DrugResponseDataset
  early_stopping : Option DrugResponseDataset

/-- Loop of `hpam_tune`: the same dataset objects are handed to every
trial, so the in-place mutations thread through the iterations; the best
configuration is updated on strict `<` only. -/
def hpam_tune_loop (model : DRPModel) (evaluate : DrugResponseDataset → ℚ) :
    List Hpam → DrugResponseDataset → DrugResponseDataset →
    Option DrugResponseDataset → Option ℚ → Option Hpam → HpamTuneResult
  | [], tr, va, ea, _, best => ⟨best, tr, va, ea⟩
  | hp :: rest, tr, va, ea, best_rmse, best =>
    let r := train_and_evaluate model evaluate hp tr va ea
    if ltInf r.score best_rmse then
      hpam_tune_loop model evaluate rest r.train r.val r.early_stopping
        (some r.score) (some hp)
    else
      hpam_tune_loop model evaluate rest r.train r.val r.early_stopping
        best_rmse best

/-- `hpam_tune`: best rmse starts at infinity and the best configuration
at `None`. -/
def hpam_tune (model : DRPModel) (evaluate : DrugResponseDataset → ℚ)
    (train_dataset validation_dataset : DrugResponseDataset)
    (early_stopping_dataset : Option DrugResponseDataset)
    (hpam_set : List Hpam) : HpamTuneResult :=
  hpam_tune_loop model evaluate hpam_set train_dataset validation_dataset
    early_stopping_dataset none none

/-- Concrete model for the C4 counterexample. -/
def C4model : DRPModel :=
  ⟨fun _ => ⟨[("c1", [("gexp", [1])])]⟩,
   fun _ => ⟨[("d1", [("fp", [2])])]⟩,
   fun cls _ _ _ => cls.map fun _ => 0⟩

/-- Concrete hyperparameter configuration for C4. -/
def C4hp : Hpam := ⟨"path", []⟩

/-- Concrete train dataset for C4. -/
def C4tr : DrugResponseDataset := ⟨[1], ["c1"], ["d1"], none⟩

/-- Concrete validation dataset for C4 (no predictions on entry). -/
def C4va : DrugResponseDataset := ⟨[2], ["c1"], ["d1"], none⟩

/-- C4 counterexample: a single-trial `hpam_tune` hands back a validation
dataset that differs from the one the caller supplied — the trial wrote
its predictions into it — so the trials do not work on read-only
copies. -/
theorem C4_counterexample :
    (hpam_tune C4model (fun _ => 0) C4tr C4va none [C4hp]).val ≠ C4va ∧
    (hpam_tune C4model (fun _ => 0) C4tr C4va none [C4hp]).val.predictions
      = some [0] ∧ C4va.predictions = none := by
  refine ⟨by decide, by decide, rfl⟩

lemma hpam_tune_loop_predictions_isSome (model : DRPModel)
    (evaluate : DrugResponseDataset → ℚ) :
    ∀ (l : List Hpam) (tr va : DrugResponseDataset)
      (ea : Option DrugResponseDataset) (bs : Option ℚ) (bh : Option Hpam),
      va.predictions.isSome = true →
      (hpam_tune_loop model evaluate l tr va ea bs bh).val.predictions.isSome
        = true := by
  intro l
  induction l with
  | nil => intro tr va ea bs bh h; exact h
  | cons hp rest ih =>
      intro tr va ea bs bh _
      simp only [hpam_tune_loop]
      by_cases hlt : ltInf (train_and_evaluate model evaluate hp tr va ea).score bs
        = true
      · rw [if_pos hlt]
        exact ih _ _ _ _ _ rfl
      · rw [if_neg hlt]
        exact ih _ _ _ _ _ rfl

/-- C4 (amended): the tuner does not copy: every trial filters the
caller datasets in place via `reduce_to` and writes the trial
predictions into the caller validation dataset, so after tuning over a
non-empty grid the validation dataset carries predictions — it has been
mutated whenever it carried none on entry. -/
theorem C4_hpam_tune_mutates (model : DRPModel)
    (evaluate : DrugResponseDataset → ℚ) (tr va : DrugResponseDataset)
    (ea : Option DrugResponseDataset) (hp : Hpam) (rest : List Hpam) :
    (hpam_tune model evaluate tr va ea (hp :: rest)).val.predictions.isSome
      = true ∧
    (va.predictions = none →
      (hpam_tune model evaluate tr va ea (hp :: rest)).val ≠ va) := by
  have hsome : (hpam_tune model evaluate tr va ea
      (hp :: rest)).val.predictions.isSome = true := by
    show (hpam_tune_loop model evaluate (hp :: rest) tr va ea none
      none).val.predictions.isSome = true
    simp only [hpam_tune_loop]
    by_cases hlt : ltInf (train_and_evaluate model evaluate hp tr va ea).score none
      = true
    · rw [if_pos hlt]
      exact hpam_tune_loop_predictions_isSome model evaluate _ _ _ _ _ _ rfl
    · rw [if_neg hlt]
      exact hpam_tune_loop_predictions_isSome model evaluate _ _ _ _ _ _ rfl
  refine ⟨hsome, fun hnone heq => ?_⟩
  rw [heq, hnone] at hsome
  simp at hsome

/-- Witness for C4 (amended) at a concrete model and datasets. -/
theorem C4_witness :
    C4va.predictions = none ∧
    ((hpam_tune C4model (fun _ => 0) C4tr C4va none [C4hp]).val.predictions.isSome
        = true ∧
      (C4va.predictions = none →
        (hpam_tune C4model (fun _ => 0) C4tr C4va none [C4hp]).val ≠ C4va)) :=
  ⟨rfl, C4_hpam_tune_mutates C4model (fun _ => 0) C4tr C4va none C4hp []⟩

/-- Reference selection for the tuner: the first configuration attaining
the minimal score. -/
def firstArgmin (f : Hpam → ℚ) : List Hpam → Option Hpam
  | [] => none
  | hp :: rest =>
    match firstArgmin f rest with
    | none => some hp
    | some m => if f hp ≤ f m then some hp else some m

/-- Pure skeleton of the tuning loop: threads only the running pair
(best score, best configuration). -/
def foldBest (f : Hpam → ℚ) : List Hpam → Option ℚ × Option Hpam →
    Option ℚ × Option Hpam
  | [], acc => acc
  | hp :: rest, (bs, bh) =>
    if ltInf (f hp) bs then foldBest f rest (some (f hp), some hp)
    else foldBest f rest (bs, bh)

lemma hpam_tune_loop_best_eq_foldBest (model : DRPModel)
    (evaluate : DrugResponseDataset → ℚ) (f : Hpam → ℚ)
    (hdet : ∀ hp tr va ea,
      (train_and_evaluate model evaluate hp tr va ea).score = f hp) :
    ∀ (l : List Hpam) (tr va : DrugResponseDataset)
      (ea : Option DrugResponseDataset) (bs : Option ℚ) (bh : Option Hpam),
      (hpam_tune_loop model evaluate l tr va ea bs bh).best
        = (foldBest f l (bs, bh)).2 := by
  intro l
  induction l with
  | nil => intro tr va ea bs bh; rfl
  | cons hp rest ih =>
      intro tr va ea bs bh
      simp only [hpam_tune_loop, foldBest, hdet hp tr va ea]
      by_cases hlt : ltInf (f hp) bs = true
      · rw [if_pos hlt, if_pos hlt]
        exact ih _ _ _ _ _
      · rw [if_neg hlt, if_neg hlt]
        exact ih _ _ _ _ _

lemma foldBest_some (f : Hpam → ℚ) :
    ∀ (l : List Hpam) (b : ℚ) (hb : Hpam),
      (foldBest f l (some b, some hb)).2 =
        match firstArgmin f l with
        | none => some hb
        | some m => if f m < b then some m else some hb := by
  intro l
  induction l with
  | nil => intro b hb; rfl
  | cons hp rest ih =>
      intro b hb
      simp only [foldBest, firstArgmin, ltInf]
      by_cases hlt : f hp < b
      · rw [if_pos (by simpa using hlt), ih]
        cases hfa : firstArgmin f rest with
        | none => simp [hlt]
        | some m =>
            by_cases hle : f hp ≤ f m
            · have hnm : ¬ f m < f hp := not_lt.mpr hle
              simp [hnm, hlt, hle]
            · have hm : f m < f hp := not_le.mp hle
              have hmb : f m < b := lt_trans hm hlt
              simp [hm, hmb, hle]
      · rw [if_neg (by simpa using hlt), ih]
        have hbh : b ≤ f hp := not_lt.mp hlt
        cases hfa : firstArgmin f rest with
        | none => simp [hlt]
        | some m =>
            by_cases hle : f hp ≤ f m
            · have hmb : ¬ f m < b := not_lt.mpr (le_trans hbh hle)
              simp [hmb, hlt, hle]
            · simp [hle]

lemma foldBest_none (f : Hpam → ℚ) (hp : Hpam) (rest : List Hpam) :
    (foldBest f (hp :: rest) (none, none)).2 = firstArgmin f (hp :: rest) := by
  have h1 : (foldBest f (hp :: rest) (none, none)).2
      = (foldBest f rest (some (f hp), some hp)).2 := by
    simp [foldBest, ltInf]
  rw [h1, foldBest_some]
  simp only [firstArgmin]
  cases hfa : firstArgmin f rest with
  | none => rfl
  | some m =>
      by_cases hle : f hp ≤ f m
      · have hnm : ¬ f m < f hp := not_lt.mpr hle
        simp [hnm, hle]
      · have hm : f m < f hp := not_le.mp hle
        simp [hm, hle]

lemma firstArgmin_isSome (f : Hpam → ℚ) (hp : Hpam) (rest : List Hpam) :
    ∃ m, firstArgmin f (hp :: rest) = some m := by
  simp only [firstArgmin]
  cases firstArgmin f rest with
  | none => exact ⟨hp, rfl⟩
  | some m =>
      by_cases hle : f hp ≤ f m
      · exact ⟨hp, by simp [hle]⟩
      · exact ⟨m, by simp [hle]⟩

lemma firstArgmin_cons (f : Hpam → ℚ) (hp : Hpam) (rest : List Hpam) :
    firstArgmin f (hp :: rest) =
      match firstArgmin f rest with
      | none => some hp
      | some m => if f hp ≤ f m then some hp else some m := rfl

lemma firstArgmin_mem (f : Hpam → ℚ) :
    ∀ (l : List Hpam) (m : Hpam), firstArgmin f l = some m → m ∈ l := by
  intro l
  induction l with
  | nil => intro m h; exact absurd h (by simp [firstArgmin])
  | cons hp rest ih =>
      intro m h
      rw [firstArgmin_cons] at h
      cases hfa : firstArgmin f rest with
      | none =>
          rw [hfa] at h
          have hm : hp = m := by simpa using h
          exact hm ▸ List.mem_cons_self _ _
      | some m1 =>
          rw [hfa] at h
          by_cases hle : f hp ≤ f m1
          · have hm : hp = m := by simpa [hle] using h
            exact hm ▸ List.mem_cons_self _ _
          · have hm : m1 = m := by simpa [hle] using h
            exact hm ▸ List.mem_cons_of_mem _ (ih m1 hfa)

lemma firstArgmin_le (f : Hpam → ℚ) :
    ∀ (l : List Hpam) (m : Hpam), firstArgmin f l = some m →
      ∀ x ∈ l, f m ≤ f x := by
  intro l
  induction l with
  | nil => intro m h; exact absurd h (by simp [firstArgmin])
  | cons hp rest ih =>
      intro m h x hx
      rw [firstArgmin_cons] at h
      cases hfa : firstArgmin f rest with
      | none =>
          have hrest : rest = [] := by
            cases rest with
            | nil => rfl
            | cons a t =>
                rcases firstArgmin_isSome f a t with ⟨m1, hm1⟩
                rw [hm1] at hfa
                cases hfa
          rw [hfa] at h
          have hm : hp = m := by simpa using h
          subst hrest
          rcases List.mem_cons.mp hx with hxe | hxe
          · subst hxe
            exact le_of_eq (congrArg f hm.symm)
          · simp at hxe
      | some m1 =>
          rw [hfa] at h
          by_cases hle : f hp ≤ f m1
          · have hm : hp = m := by simpa [hle] using h
            rcases List.mem_cons.mp hx with hxe | hxr
            · subst hxe
              exact le_of_eq (congrArg f hm.symm)
            · have hle2 : f m ≤ f m1 := by rw [← hm]; exact hle
              exact le_trans hle2 (ih m1 hfa x hxr)
          · have hm : m1 = m := by simpa [hle] using h
            rcases List.mem_cons.mp hx with hxe | hxr
            · subst hxe
              have h1 : f m1 < f x := not_le.mp hle
              rw [← hm]
              exact le_of_lt h1
            · rw [← hm]
              exact ih m1 hfa x hxr

lemma firstArgmin_first (f : Hpam → ℚ) :
    ∀ (l : List Hpam) (m : Hpam), firstArgmin f l = some m →
      ∃ pre post, l = pre ++ m :: post ∧ ∀ x ∈ pre, f m < f x := by
  intro l
  induction l with
  | nil => intro m h; exact absurd h (by simp [firstArgmin])
  | cons hp rest ih =>
      intro m h
      rw [firstArgmin_cons] at h
      cases hfa : firstArgmin f rest with
      | none =>
          rw [hfa] at h
          have hm : hp = m := by simpa using h
          exact ⟨[], rest, by rw [List.nil_append, ← hm], by simp⟩
      | some m1 =>
          rw [hfa] at h
          by_cases hle : f hp ≤ f m1
          · have hm : hp = m := by simpa [hle] using h
            exact ⟨[], rest, by rw [List.nil_append, ← hm], by simp⟩
          · have hm : m1 = m := by simpa [hle] using h
            subst hm
            rcases ih m1 hfa with ⟨pre, post, hsplit, hpre⟩
            refine ⟨hp :: pre, post, by rw [hsplit]; rfl, ?_⟩
            intro x hx
            rcases List.mem_cons.mp hx with hxe | hxp
            · subst hxe
              exact not_le.mp hle
            · exact hpre x hxp


/-- C8: for a non-empty candidate list and an objective whose score
depends only on the configuration, the sequential tuner selects the
configuration with the lowest rmse, and on ties the first one in
iteration order — every configuration listed before the winner scores
strictly worse. -/
theorem C8_hpam_tune_first_argmin (model : DRPModel)
    (evaluate : DrugResponseDataset → ℚ) (f : Hpam → ℚ)
    (tr va : DrugResponseDataset) (ea : Option DrugResponseDataset)
    (l : List Hpam)
    (hdet : ∀ hp tr1 va1 ea1,
      (train_and_evaluate model evaluate hp tr1 va1 ea1).score = f hp)
    (hne : l ≠ []) :
    ∃ m, (hpam_tune model evaluate tr va ea l).best = some m ∧
      m ∈ l ∧ (∀ x ∈ l, f m ≤ f x) ∧
      ∃ pre post, l = pre ++ m :: post ∧ ∀ x ∈ pre, f m < f x := by
  cases l with
  | nil => exact absurd rfl hne
  | cons hp rest =>
      rcases firstArgmin_isSome f hp rest with ⟨m, hm⟩
      refine ⟨m, ?_, firstArgmin_mem f _ m hm, firstArgmin_le f _ m hm,
        firstArgmin_first f _ m hm⟩
      show (hpam_tune_loop model evaluate (hp :: rest) tr va ea none none).best
        = some m
      rw [hpam_tune_loop_best_eq_foldBest model evaluate f hdet, foldBest_none, hm]

/-- Concrete model for the C8 witness. -/
def C8model : DRPModel :=
  ⟨fun _ => ⟨[("c1", [("g", [1])])]⟩,
   fun _ => ⟨[("d1", [("f", [1])])]⟩,
   fun cls _ _ _ => cls.map fun _ => 0⟩

/-- First concrete configuration for C8. -/
def C8h1 : Hpam := ⟨"p1", []⟩

/-- Second concrete configuration for C8. -/
def C8h2 : Hpam := ⟨"p2", []⟩

/-- Concrete train dataset for C8. -/
def C8tr : DrugResponseDataset := ⟨[1], ["c1"], ["d1"], none⟩

/-- Concrete validation dataset for C8. -/
def C8va : DrugResponseDataset := ⟨[2], ["c1"], ["d1"], none⟩

/-- Witness for C8 at a concrete two-element grid with a constant
objective: both hypotheses are discharged and the tie goes to the first
configuration. -/
theorem C8_witness :
    ([C8h1, C8h2] ≠ ([] : List Hpam)) ∧
    (∃ m, (hpam_tune C8model (fun _ => (0 : ℚ)) C8tr C8va none
        [C8h1, C8h2]).best = some m ∧
      m ∈ [C8h1, C8h2] ∧ (∀ x ∈ [C8h1, C8h2], (0 : ℚ) ≤ 0) ∧
      ∃ pre post, [C8h1, C8h2] = pre ++ m :: post ∧ ∀ x ∈ pre, (0 : ℚ) < 0) :=
  ⟨by simp, C8_hpam_tune_first_argmin C8model (fun _ => (0 : ℚ))
    (fun _ => (0 : ℚ)) C8tr C8va none [C8h1, C8h2]
    (fun hp tr1 va1 ea1 => rfl) (by simp)⟩

/-- Final-training step of `drug_response_experiment` for one split:
`train_dataset.add_rows(validation_dataset)`, then
`train_dataset.shuffle(random_state=42)` (the pipeline passes the index
permutation the seeded shuffle produced), then
`train_and_predict(model, best_hpams, ...)` with no feature stores — so a
`None` selected configuration reaches `hpams["feature_path"]`, which
raises TypeError on `None`. -/
def experiment_final_training (model : DRPModel) (shuffle_indices : List ℕ)
    (best_hpams : Option Hpam)
    (train_dataset validation_dataset test_dataset : DrugResponseDataset)
    (early_stopping_dataset : Option DrugResponseDataset) :
    Except PyErr TAPResult :=
  let train1 := add_rows train_dataset validation_dataset
  let train2 := shuffle train1 shuffle_indices
  match best_hpams with
  | none => Except.error (PyErr.typeError "NoneType object is not subscriptable")
  | some hp => Except.ok (train_and_predict model hp train2 test_dataset
      early_stopping_dataset none none)

/-- One (model, split) iteration of `drug_response_experiment` after the
folds exist: tune over the candidate set, then run final training with
the selected configuration; the datasets the tuner mutated are the very
objects used afterwards.  Returns the selected configuration and the
final-training outcome. -/
def experiment_split_step (model : DRPModel) (evaluate : DrugResponseDataset → ℚ)
    (shuffle_indices : List ℕ) (hpam_set : List Hpam)
    (train_dataset validation_dataset test_dataset : DrugResponseDataset)
    (early_stopping_dataset : Option DrugResponseDataset) :
    Option Hpam × Except PyErr TAPResult :=
  let t := hpam_tune model evaluate train_dataset validation_dataset
    early_stopping_dataset hpam_set
  (t.best, experiment_final_training model shuffle_indices t.best t.train t.val
    test_dataset t.early_stopping)

/-- C10: with an empty candidate list the tuner loop never runs, so
`hpam_tune` returns `None` as the best configuration without raising,
and the experiment passes exactly that `None` on as the selected
hyperparameters for final training (where the `hpams` subscript then
meets `None`). -/
theorem C10_empty_hpam_set (model : DRPModel)
    (evaluate : DrugResponseDataset → ℚ) (idx : List ℕ)
    (tr va te : DrugResponseDataset) (ea : Option DrugResponseDataset) :
    (hpam_tune model evaluate tr va ea []).best = none ∧
    experiment_split_step model evaluate idx [] tr va te ea =
      (none, Except.error
        (PyErr.typeError "NoneType object is not subscriptable")) :=
  ⟨rfl, rfl⟩
